import Mathlib

/-!
Verification of the parallel rendering subsystem of the pdfium_fast repository.

The definitions below are shallow embeddings of functions from:
  - fpdfsdk/fpdf_parallel.cpp (worker pool, ProcessTask / ProcessTaskV2,
    FPDF_RenderPagesParallel / FPDF_RenderPagesParallelV2 fast paths)
  - examples/pdfium_cli.cpp (scale computation, smart-mode JPEG fast path,
    hybrid thread-count capping, JSON escaping, bulk render loop)
  - core/fpdfapi/parser/cpdf_indirect_object_holder.cpp (object cache)

Real numbers computed in C `double` are modelled as rationals.  For every
concrete input used in a theorem below the double computation and the exact
rational computation agree (the inputs are small and the results are far from
the rounding boundaries); this is noted where relevant.
-/

namespace PdfiumFast

/-! ## Dimension and scale computation

From `render_page_to_png` (examples/pdfium_cli.cpp:2642-2661) and the
dpi auto-detect branch of `GlobalThreadPool::ProcessTaskV2`
(fpdfsdk/fpdf_parallel.cpp:581-595). -/

/-- INT_MAX for a 32-bit `int`, used by the CLI dimension overflow check. -/
def intMax : ℤ := 2147483647

/-- INT_MIN for a 32-bit `int`. -/
def intMin : ℤ := -2147483648

/-- C truncation toward zero of a real (rational) value, the behavior of a
`(int)` / `static_cast<int>` conversion on an in-range value. -/
def ratTrunc (q : ℚ) : ℤ := if 0 ≤ q then ⌊q⌋ else -⌊-q⌋

/-- Model of `static_cast<int>(double)`.  For values whose truncation lies in
`[INT_MIN, INT_MAX]` the C++ standard prescribes truncation toward zero.  For
out-of-range values the conversion has no defined result in the standard and
the repository's two targets differ: x86-64 (cvttsd2si) produces INT_MIN,
arm64 (fcvtzs) saturates.  This definition picks the x86-64 result; every
theorem whose conclusion depends on the out-of-range case quantifies over
the cast instead, assuming only what both targets satisfy (for a value above
INT_MAX the result is either below 1 or exactly INT_MAX) — the trace
equalities use this definition identically on both compared paths and are
insensitive to the choice. -/
def castDoubleToInt (q : ℚ) : ℤ :=
  if intMin ≤ ratTrunc q ∧ ratTrunc q ≤ intMax then ratTrunc q else intMin

/-- Render scale for a DPI value, from pdfium_cli.cpp:2648-2649:
`scale = floor((dpi / 72.0) * 1000000.0) / 1000000.0`. -/
def scaleOfDpi (dpi : ℚ) : ℚ := (⌊dpi / 72 * 1000000⌋ : ℚ) / 1000000

/-- Pixel-dimension computation of `render_page_to_png`
(pdfium_cli.cpp:2642-2661): compute `width_pts * scale`, reject the page when
either raw dimension exceeds INT_MAX or is below 1, otherwise truncate to
`int`.  `none` models the per-page failure return. -/
def cliPageDims (wPts hPts dpi : ℚ) : Option (ℤ × ℤ) :=
  let scale := scaleOfDpi dpi
  let wRaw := wPts * scale
  let hRaw := hPts * scale
  if (intMax : ℚ) < wRaw ∨ wRaw < 1 ∨ (intMax : ℚ) < hRaw ∨ hRaw < 1 then none
  else some (ratTrunc wRaw, ratTrunc hRaw)

/-- Dimension computation of the dpi auto-detect branch of `ProcessTaskV2`
(fpdf_parallel.cpp:581-595) and of the single-threaded fast path of
`FPDF_RenderPagesParallelV2` (fpdf_parallel.cpp:1083-1094): cast
`page_width_pts * scale` to `int` (no INT_MAX guard exists here), then fail
the task when either result is below 1. -/
def v2AutoDims (wPts hPts dpi : ℚ) : Option (ℤ × ℤ) :=
  let scale := scaleOfDpi dpi
  let aw := castDoubleToInt (wPts * scale)
  let ah := castDoubleToInt (hPts * scale)
  if aw < 1 ∨ ah < 1 then none else some (aw, ah)

/-- Render scale exactly as the specification words it (spec §4.6.2):
`scale = floor((d / 72) × 10⁶) / 10⁶`.  Kept separate from `scaleOfDpi`
so the refinement claim compares the two. -/
def specScale (d : ℚ) : ℚ := (⌊d / 72 * 1000000⌋ : ℚ) / 1000000

/-- Pixel dimension exactly as the specification words it (spec §4.6.2):
`Width_px = floor(width_points × scale)`. -/
def specPixelDim (pts d : ℚ) : ℤ := ⌊pts * specScale d⌋

/-- Single-threaded per-page loop of `render_pages_bulk`
(pdfium_cli.cpp:3263-3274): every page is processed in order; a page whose
dimension computation fails bumps the failure counter and the loop continues.
Returns (pages processed, pages failed). -/
def cliBatchRender (pages : List (ℚ × ℚ)) (dpi : ℚ) : ℕ × ℕ :=
  pages.foldl
    (fun acc pg =>
      match cliPageDims pg.1 pg.2 dpi with
      | none => (acc.1 + 1, acc.2 + 1)
      | some _ => (acc.1 + 1, acc.2))
    (0, 0)

/-! ## Hybrid N×K thread-count capping

From the oversubscription guard in `main` (pdfium_cli.cpp:1253-1264) and the
per-worker cap at the top of `render_pages_worker`
(pdfium_cli.cpp:3530-3540). -/

/-- Oversubscription guard run by the parent before spawning children
(pdfium_cli.cpp:1253-1264).  When both worker_count and thread_count exceed 1
and `worker_count * thread_count` exceeds the hardware thread count (fallback
8 when detection yields 0), thread_count is reduced to
`max(1, hw / worker_count)` and a notice is printed (the Bool result). -/
def hybridThreadCap (workerCount threadCount hw : ℕ) : ℕ × Bool :=
  if 1 < workerCount ∧ 1 < threadCount then
    let hwc := if hw = 0 then 8 else hw
    if hwc < workerCount * threadCount then (max 1 (hwc / workerCount), true)
    else (threadCount, false)
  else (threadCount, false)

/-- Per-worker thread cap inside the child process
(pdfium_cli.cpp:3532-3540): at most `min(hardware_concurrency, 16)` threads,
with fallback 4 when the hardware count is unknown. -/
def workerThreadCap (threadCount hw : ℕ) : ℕ :=
  let hwT := if hw < 1 then 4 else hw
  let maxPerWorker := min hwT 16
  if maxPerWorker < threadCount then maxPerWorker else threadCount

/-- Thread count a child worker actually runs with: the parent-side cap
composed with the child-side cap (the parent passes the capped value on the
`--worker` command line, pdfium_cli.cpp:3378). -/
def childThreadCount (workerCount threadCount hw : ℕ) : ℕ :=
  workerThreadCap (hybridThreadCap workerCount threadCount hw).1 hw

/-! ## Worker pool outstanding-task accounting

Counting abstraction of `GlobalThreadPool` (fpdf_parallel.cpp:267-682).
Each task passes through five stages, in order:
increment of `outstanding_tasks_` (EnqueueTask/EnqueueTaskV2 line 314/324,
before the queue push), placement on the lock-free queue (line 315/325),
dequeue by a worker (lines 377-381), return of the completion callback
(end of ProcessTask/ProcessTaskV2), and the `fetch_sub` that follows
(line 432).  The state tracks how many tasks have passed each stage and the
value of the `outstanding_tasks_` counter.  `EnqueueTasksV2Batch`
(lines 332-344) adds its whole batch in one transition (fetch_add of the
batch size followed by `enqueue_bulk`). -/

structure PoolState where
  maxQueueDepth : ℤ
  outstanding : ℤ
  nInc : ℕ
  nQueued : ℕ
  nDeq : ℕ
  nCb : ℕ
  nDec : ℕ
deriving DecidableEq

/-- Pool state right after `SetMaxQueueDepth d`, before any task is enqueued
(FPDF_RenderPagesParallel/V2 set the depth before enqueueing). -/
def initPool (d : ℤ) : PoolState := ⟨d, 0, 0, 0, 0, 0, 0⟩

/-- Events of the worker pool run. -/
inductive PoolLabel where
  | startEnq
  | pushQueue
  | batchEnq (n : ℕ)
  | dequeue
  | callbackRet
  | decrement
deriving DecidableEq

/-- One observable transition of the worker pool.

`startEnq` is the `outstanding_tasks_.fetch_add(1)` of a single enqueue; its
guard is `WaitForBackpressure` (fpdf_parallel.cpp:443-452): with a positive
depth it can fire only while `outstanding < max_depth`.  `pushQueue` places a
previously counted task on the queue.  `batchEnq n` is
`EnqueueTasksV2Batch`; its guard is `WaitForBackpressureBatch`
(lines 455-467): with a positive depth it requires
`outstanding ≤ max_depth - min n max_depth`.  `dequeue` and `callbackRet`
advance a task through worker processing; `decrement` is the `fetch_sub`
that runs strictly after the completion callback returned (line 432). -/
inductive PoolStep : PoolState → PoolLabel → PoolState → Prop where
  | startEnq (s : PoolState)
      (h : s.maxQueueDepth ≤ 0 ∨ s.outstanding < s.maxQueueDepth) :
      PoolStep s .startEnq
        { s with outstanding := s.outstanding + 1, nInc := s.nInc + 1 }
  | pushQueue (s : PoolState) (h : s.nQueued < s.nInc) :
      PoolStep s .pushQueue { s with nQueued := s.nQueued + 1 }
  | batchEnq (s : PoolState) (n : ℕ) (hn : 0 < n)
      (h : s.maxQueueDepth ≤ 0 ∨
           s.outstanding ≤ s.maxQueueDepth - min (n : ℤ) s.maxQueueDepth) :
      PoolStep s (.batchEnq n)
        { s with outstanding := s.outstanding + n, nInc := s.nInc + n,
                 nQueued := s.nQueued + n }
  | dequeue (s : PoolState) (h : s.nDeq < s.nQueued) :
      PoolStep s .dequeue { s with nDeq := s.nDeq + 1 }
  | callbackRet (s : PoolState) (h : s.nCb < s.nDeq) :
      PoolStep s .callbackRet { s with nCb := s.nCb + 1 }
  | decrement (s : PoolState) (h : s.nDec < s.nCb) :
      PoolStep s .decrement
        { s with outstanding := s.outstanding - 1, nDec := s.nDec + 1 }

/-- Multi-step reachability along a trace of pool events. -/
inductive PoolReaches : PoolState → List PoolLabel → PoolState → Prop where
  | refl (s : PoolState) : PoolReaches s [] s
  | step {s₁ : PoolState} {l : PoolLabel} {s₂ : PoolState} {tr : List PoolLabel}
      {s₃ : PoolState} :
      PoolStep s₁ l s₂ → PoolReaches s₂ tr s₃ → PoolReaches s₁ (l :: tr) s₃

/-- Invariant tying the `outstanding_tasks_` counter to the cumulative
per-stage counts of a pool run. -/
def PoolInv (s : PoolState) : Prop :=
  s.outstanding = (s.nInc : ℤ) - s.nDec ∧
  s.nDec ≤ s.nCb ∧ s.nCb ≤ s.nDeq ∧ s.nDeq ≤ s.nQueued ∧ s.nQueued ≤ s.nInc

/-! ## Per-page bitmap/form operation traces

Shallow embedding of the operation sequences issued per page by the four
render paths:

  - `v1SingleOps`    — single-threaded fast path of `FPDF_RenderPagesParallel`
                       (fpdf_parallel.cpp:908-951),
  - `processTaskOps` — `GlobalThreadPool::ProcessTask` (lines 469-544),
  - `v2SingleOps`    — single-threaded fast path of `FPDF_RenderPagesParallelV2`
                       (lines 1064-1132),
  - `processTaskV2Ops` — `GlobalThreadPool::ProcessTaskV2` (lines 546-659).

The trace records exactly the operations the equivalence claim enumerates:
bitmap creation/acquisition (dimensions and pixel format), the background
fill color, the render call with its flags, the form-overlay draw with its
arguments, and the form-lifecycle events.  Page load/close, bookkeeping and
the callback itself are identical concerns on all paths and are omitted. -/

/-- Bitmap pixel formats reaching `FPDFBitmap_CreateEx` / `BitmapPool::Acquire`,
abstracting the `FPDFBitmap_*` constants returned by
`ParallelFormatToFPDFFormat` (fpdf_parallel.cpp:140-149). -/
inductive FpdfFmt where
  | bgrx
  | bgr
  | gray
deriving DecidableEq

/-- `ParallelFormatToFPDFFormat` (fpdf_parallel.cpp:140-149): option value 1
maps to BGR, 2 to Gray, everything else to BGRx. -/
def parallelFormatToFPDFFormat (outputFormat : ℕ) : FpdfFmt :=
  if outputFormat = 1 then .bgr else if outputFormat = 2 then .gray else .bgrx

/-- The `FPDF_GRAYSCALE` render-flag bit (0x08).  The public fpdfview.h header
is not part of the sources under inspection; the value is the documented
public PDFium constant.  Only its role as a flag bit matters below. -/
def fpdfGrayscaleFlag : ℕ := 8

/-- Fill color chosen from the page transparency flag
(fpdf_parallel.cpp:503-504 and the equivalent lines of the other paths):
transparent pages filled with 0x00000000, others with 0xFFFFFFFF. -/
def fillColor (transparent : Bool) : ℕ :=
  if transparent then 0x00000000 else 0xFFFFFFFF

/-- Effective render flags: the grayscale bit is added when the output format
is Gray (`FPDF_PARALLEL_FORMAT_GRAY = 2`), fpdf_parallel.cpp:508-511. -/
def renderFlagsFor (flags outputFormat : ℕ) : ℕ :=
  if outputFormat = 2 then flags ||| fpdfGrayscaleFlag else flags

/-- Parameters shared by a render invocation (one task / one page of the
single-threaded loop). -/
structure RenderParams where
  width : ℤ
  height : ℤ
  rotate : ℤ
  flags : ℕ
  outputFormat : ℕ
  hasForm : Bool
  dpi : ℚ
deriving DecidableEq

/-- Properties of the page being rendered, as observed through the parser
interface: whether `FPDF_LoadPage` succeeds, the transparency flag, the media
size in points, and whether bitmap creation/acquisition returns a bitmap. -/
structure PageProps where
  loadOk : Bool
  transparent : Bool
  widthPts : ℚ
  heightPts : ℚ
  allocOk : Bool
deriving DecidableEq

/-- One claim-relevant operation issued while rendering a page. -/
inductive RenderOp where
  | formAfterLoad
  | formOpenAction
  | bitmap (w h : ℤ) (fmt : FpdfFmt)
  | fill (w h : ℤ) (color : ℕ)
  | render (w h rot : ℤ) (fl : ℕ)
  | fflDraw (w h rot : ℤ) (fl : ℕ)
  | formCloseAction
  | formBeforeClose
deriving DecidableEq

/-- Single-threaded fast path of `FPDF_RenderPagesParallel`
(fpdf_parallel.cpp:908-951), one page: load (no form events are issued on
this path), create the bitmap, and if creation succeeded fill, render with
the grayscale-augmented flags, and draw the form overlay — also with the
grayscale-augmented flags (line 938-941 passes `render_flags`). -/
def v1SingleOps (p : RenderParams) (pg : PageProps) : List RenderOp :=
  if !pg.loadOk then []
  else
    let fmt := parallelFormatToFPDFFormat p.outputFormat
    let rflags := renderFlagsFor p.flags p.outputFormat
    [RenderOp.bitmap p.width p.height fmt] ++
    (if pg.allocOk then
      [RenderOp.fill p.width p.height (fillColor pg.transparent),
       RenderOp.render p.width p.height p.rotate rflags] ++
      (if p.hasForm then [RenderOp.fflDraw p.width p.height p.rotate rflags]
       else [])
    else [])

/-- `GlobalThreadPool::ProcessTask` (fpdf_parallel.cpp:469-544), one task:
after a successful load the form after-load and open-action events fire
(lines 492-495), the bitmap is created, and on success fill/render use the
grayscale-augmented flags while `FPDF_FFLDraw` receives the original
`task.flags` (line 518-521).  The close-action and before-close form events
fire whether or not the bitmap was created (lines 525-529). -/
def processTaskOps (p : RenderParams) (pg : PageProps) : List RenderOp :=
  if !pg.loadOk then []
  else
    let fmt := parallelFormatToFPDFFormat p.outputFormat
    let rflags := renderFlagsFor p.flags p.outputFormat
    (if p.hasForm then [RenderOp.formAfterLoad, RenderOp.formOpenAction]
     else []) ++
    [RenderOp.bitmap p.width p.height fmt] ++
    (if pg.allocOk then
      [RenderOp.fill p.width p.height (fillColor pg.transparent),
       RenderOp.render p.width p.height p.rotate rflags] ++
      (if p.hasForm then [RenderOp.fflDraw p.width p.height p.rotate p.flags]
       else [])
    else []) ++
    (if p.hasForm then [RenderOp.formCloseAction, RenderOp.formBeforeClose]
     else [])

/-- Actual bitmap dimensions of a V2 render: the dpi auto-detect computation
when `width == 0 && height == 0 && dpi > 0` (same formula in ProcessTaskV2,
lines 581-595, and the V2 single-threaded path, lines 1083-1094), otherwise
the requested width/height. -/
def v2ActualDims (p : RenderParams) (pg : PageProps) : Option (ℤ × ℤ) :=
  if p.width = 0 ∧ p.height = 0 ∧ 0 < p.dpi then
    v2AutoDims pg.widthPts pg.heightPts p.dpi
  else some (p.width, p.height)

/-- Single-threaded fast path of `FPDF_RenderPagesParallelV2`
(fpdf_parallel.cpp:1064-1132), one page: no form events are issued; on a
dimension failure the page is skipped; otherwise acquire, fill, render and
form-overlay draw, the latter with the grayscale-augmented `render_flags`
(lines 1117-1120). -/
def v2SingleOps (p : RenderParams) (pg : PageProps) : List RenderOp :=
  if !pg.loadOk then []
  else
    let fmt := parallelFormatToFPDFFormat p.outputFormat
    let rflags := renderFlagsFor p.flags p.outputFormat
    match v2ActualDims p pg with
    | none => []
    | some (aw, ah) =>
      [RenderOp.bitmap aw ah fmt] ++
      (if pg.allocOk then
        [RenderOp.fill aw ah (fillColor pg.transparent),
         RenderOp.render aw ah p.rotate rflags] ++
        (if p.hasForm then [RenderOp.fflDraw aw ah p.rotate rflags] else [])
      else [])

/-- `GlobalThreadPool::ProcessTaskV2` (fpdf_parallel.cpp:546-659), one task:
form after-load/open-action events fire right after the load (lines 576-579),
then the dimension computation; a dimension failure or a failed bitmap
acquisition returns early without close events; on success fill/render use
the grayscale-augmented flags, `FPDF_FFLDraw` receives the original
`task.flags` (lines 626-629), and the close-action/before-close events fire
(lines 637-640). -/
def processTaskV2Ops (p : RenderParams) (pg : PageProps) : List RenderOp :=
  if !pg.loadOk then []
  else
    let fmt := parallelFormatToFPDFFormat p.outputFormat
    let rflags := renderFlagsFor p.flags p.outputFormat
    (if p.hasForm then [RenderOp.formAfterLoad, RenderOp.formOpenAction]
     else []) ++
    match v2ActualDims p pg with
    | none => []
    | some (aw, ah) =>
      [RenderOp.bitmap aw ah fmt] ++
      (if pg.allocOk then
        [RenderOp.fill aw ah (fillColor pg.transparent),
         RenderOp.render aw ah p.rotate rflags] ++
        (if p.hasForm then [RenderOp.fflDraw aw ah p.rotate p.flags] else []) ++
        (if p.hasForm then [RenderOp.formCloseAction, RenderOp.formBeforeClose]
         else [])
      else [])

/-! ## V2 dimension-mode task outcome

Complete per-task outcome of the dpi auto-detect branch of `ProcessTaskV2`
(fpdf_parallel.cpp:581-608), including the bitmap-acquisition step the
dimension computation feeds into. -/

/-- Bits per pixel of the three bitmap formats (spec §6.2: BGRx 4 bytes,
BGR 3 bytes, Gray 1 byte per pixel). -/
def bitsPerPixel : FpdfFmt → ℤ
  | FpdfFmt.bgrx => 32
  | FpdfFmt.bgr => 24
  | FpdfFmt.gray => 8

/-- Modelled from the spec: whether the underlying library can create a
bitmap of the given size — the `create_bitmap` contract of spec §6.1 with
the §6.2 layout (row stride in whole bytes, at least width × bytes/pixel).
Its implementation, `FPDFBitmap_CreateEx` → `CFX_DIBitmap::Create` →
`CalculatePitchAndSize`/`CalculatePitch32` in core/fxge/dib, is not among
the sources under inspection; it computes the row pitch
`(width × bits_per_pixel + 31) / 32 × 4` and the total `pitch × height` in
32-bit checked arithmetic and returns a null bitmap on non-positive
dimensions or any overflow, which is what this predicate captures. -/
def fpdfBitmapCreateOk (w h : ℤ) (fmt : FpdfFmt) : Bool :=
  decide (0 < w ∧ 0 < h ∧ w * bitsPerPixel fmt ≤ 4294967295 ∧
    (w * bitsPerPixel fmt + 31) / 32 * 4 * h ≤ 4294967295)

/-- Outcome of one dimension-mode V2 task: failure at the `< 1` dimension
guard, failure at the null-bitmap branch, or an actual render. -/
inductive V2TaskOutcome where
  | failsDimensionCheck
  | failsBitmapAcquire
  | renders
deriving DecidableEq

/-- Dimension-mode body of `GlobalThreadPool::ProcessTaskV2`
(fpdf_parallel.cpp:581-608), parametric in the double→int cast semantics
`castFn` (see `castDoubleToInt`): compute the pixel dimensions from the page
size and the scale; a dimension below 1 fails the task through the guard at
lines 589-594 (callback invoked with success=false); otherwise the bitmap is
acquired — the thread-local pool returns only a previously created bitmap of
exactly the requested size, so acquisition yields a bitmap exactly when one
is creatable — and a null bitmap fails the task through the branch at lines
599-608 (callback invoked with success=false); only otherwise is the page
rendered.  Both failure branches return normally to the worker loop, which
proceeds with the remaining tasks of the batch. -/
def processTaskV2DimMode (castFn : ℚ → ℤ) (wPts hPts dpi : ℚ)
    (fmt : FpdfFmt) : V2TaskOutcome :=
  let scale := scaleOfDpi dpi
  let aw := castFn (wPts * scale)
  let ah := castFn (hPts * scale)
  if aw < 1 ∨ ah < 1 then V2TaskOutcome.failsDimensionCheck
  else if !fpdfBitmapCreateOk aw ah fmt then V2TaskOutcome.failsBitmapAcquire
  else V2TaskOutcome.renders

/-! ## Smart-mode JPEG fast path

From `is_scanned_page` (pdfium_cli.cpp:2490-2522), `render_scanned_page_fast`
(pdfium_cli.cpp:2524-2592) and their caller `render_page_to_png`
(pdfium_cli.cpp:2614-2640).  Page objects are observed through the parser
interface; filter names and raw stream data are byte lists.  The model
assumes the output file opens and writes successfully (an I/O failure makes
`render_scanned_page_fast` fall back exactly like the other failures). -/

/-- Page-object type as far as the fast path inspects it:
`FPDFPageObj_GetType(obj) == FPDF_PAGEOBJ_IMAGE` or not. -/
inductive PageObjKind where
  | image
  | nonImage
deriving DecidableEq

/-- One page object: its type, its bounds as (left, bottom, right, top) when
`FPDFPageObj_GetBounds` succeeds, its filter names, and its raw stream
bytes. -/
structure PageObject where
  kind : PageObjKind
  bounds : Option (ℚ × ℚ × ℚ × ℚ)
  filters : List (List ℕ)
  rawData : List ℕ
deriving DecidableEq

/-- A page as the smart-mode pass sees it. -/
structure PdfPage where
  objects : List PageObject
  widthPts : ℚ
  heightPts : ℚ
deriving DecidableEq

/-- The bytes of the string "DCTDecode". -/
def dctDecodeBytes : List ℕ := [68, 67, 84, 68, 101, 99, 111, 100, 101]

/-- Filter test of `render_scanned_page_fast` (pdfium_cli.cpp:2542):
`strncmp(filter_name, "DCTDecode", 9) == 0`, i.e. the first nine bytes of the
filter name equal "DCTDecode" — any longer filter name beginning with these
nine bytes also matches. -/
def filterIsDct (f : List ℕ) : Bool := f.take 9 = dctDecodeBytes

/-- `is_scanned_page` (pdfium_cli.cpp:2490-2522): exactly one object, of type
IMAGE, with retrievable bounds, on a page of positive area, whose bounds area
covers at least 95 % of the page area. -/
def isScannedPage (page : PdfPage) : Bool :=
  match page.objects with
  | [obj] =>
    if obj.kind = PageObjKind.image then
      match obj.bounds with
      | none => false
      | some (l, b, r, t) =>
        let objArea := (r - l) * (t - b)
        let pageArea := page.widthPts * page.heightPts
        if pageArea ≤ 0 then false
        else decide ((95 : ℚ) / 100 ≤ objArea / pageArea)
    else false
  | _ => false

/-- `render_scanned_page_fast` (pdfium_cli.cpp:2524-2592): require some
filter matching DCTDecode, a nonzero raw size, at least three bytes, and the
JPEG signature FF D8 FF; on success the raw bytes are the page's output
(`some data`), on any failure the caller falls back to normal rendering
(`none`). -/
def renderScannedPageFast (page : PdfPage) : Option (List ℕ) :=
  match page.objects.head? with
  | none => none
  | some obj =>
    if !obj.filters.any filterIsDct then none
    else if obj.rawData.length = 0 then none
    else
      match obj.rawData with
      | b0 :: b1 :: b2 :: _ =>
        if b0 = 0xFF ∧ b1 = 0xD8 ∧ b2 = 0xFF then some obj.rawData else none
      | _ => none

/-- Smart-mode output decision of `render_page_to_png`
(pdfium_cli.cpp:2614-2640): the fast path is attempted only when the output
is not PPM, not raw, and not benchmark mode, and `is_scanned_page` holds;
`some data` means the page's output file is exactly `data`, `none` means the
page goes through the normal rendering path. -/
def smartModeOutput (usePpm useRaw benchmark : Bool) (page : PdfPage) :
    Option (List ℕ) :=
  if !usePpm && !useRaw && !benchmark && isScannedPage page then
    renderScannedPageFast page
  else none

/-- The fast-path condition exactly as the claim words it: exactly one
object, of type IMAGE, with a DCTDecode filter, bounds covering at least
0.95 of the page area, and non-empty raw data with a valid JPEG
signature. -/
def claimScannedPredicate (page : PdfPage) : Prop :=
  ∃ obj, page.objects = [obj] ∧ obj.kind = PageObjKind.image ∧
    dctDecodeBytes ∈ obj.filters ∧
    (∃ l b r t, obj.bounds = some (l, b, r, t) ∧
      (95 : ℚ) / 100 * (page.widthPts * page.heightPts) ≤ (r - l) * (t - b)) ∧
    obj.rawData ≠ [] ∧ obj.rawData.take 3 = [0xFF, 0xD8, 0xFF]

/-- The fast-path condition as the code actually checks it (the amended
claim): the filter test accepts any filter whose first nine bytes are
"DCTDecode", the page area must be positive, and the raw data must be at
least three bytes starting FF D8 FF. -/
def amendedScannedPredicate (page : PdfPage) (data : List ℕ) : Prop :=
  ∃ obj, page.objects = [obj] ∧ data = obj.rawData ∧
    obj.kind = PageObjKind.image ∧
    obj.filters.any filterIsDct = true ∧
    (∃ l b r t, obj.bounds = some (l, b, r, t) ∧
      0 < page.widthPts * page.heightPts ∧
      (95 : ℚ) / 100 ≤ (r - l) * (t - b) / (page.widthPts * page.heightPts)) ∧
    obj.rawData.take 3 = [0xFF, 0xD8, 0xFF]

/-- A page holding a single full-bleed image object whose only filter name
is "DCTDecodeX" — the nine-byte prefix comparison of
`render_scanned_page_fast` accepts it — with valid JPEG-signature raw
data. -/
def cexSmartPage : PdfPage :=
  PdfPage.mk
    [PageObject.mk PageObjKind.image (some (0, 0, 612, 792))
      [dctDecodeBytes ++ [88]] [255, 216, 255, 0]]
    612 792

/-! ## JSONL string escaping

From `write_json_escaped_string` (pdfium_cli.cpp:3789-3815) and
`write_json_escaped_char` (pdfium_cli.cpp:3818-3852).  Strings are byte
lists; the output is the byte sequence written to the stream. -/

/-- Lowercase hex digit (ASCII code) for a value below 16, as produced by the
`%04x` format. -/
def hexDigit (n : ℕ) : ℕ := if n < 10 then 48 + n else 87 + n

/-- Escape of one input byte inside `write_json_escaped_string`
(pdfium_cli.cpp:3797-3812): named escapes for quote, backslash and the five
common control characters, `\u00XX` for the remaining C0 controls, and the
byte itself otherwise — bytes at 0x80 and above take the default branch and
are emitted verbatim. -/
def escapeByte (b : ℕ) : List ℕ :=
  if b = 34 then [92, 34]
  else if b = 92 then [92, 92]
  else if b = 10 then [92, 110]
  else if b = 13 then [92, 114]
  else if b = 9 then [92, 116]
  else if b = 8 then [92, 98]
  else if b = 12 then [92, 102]
  else if b < 32 then [92, 117, 48, 48, hexDigit (b / 16), hexDigit (b % 16)]
  else [b]

/-- `write_json_escaped_string` on a non-null C string: an opening quote, the
escape of every byte up to the first NUL, and a closing quote. -/
def writeJsonEscapedString (bytes : List ℕ) : List ℕ :=
  34 :: (bytes.takeWhile (fun b => b ≠ 0)).flatMap escapeByte ++ [34]

/-- UTF-8 buffer built by `write_json_escaped_char`
(pdfium_cli.cpp:3818-3849) for a code point, before escaping: 1-4 byte UTF-8
encoding, or the replacement character EF BF BD for values at 0x110000 and
above.  The list holds the bytes before the terminating NUL of the C
buffer. -/
def utf8Buf (cp : ℕ) : List ℕ :=
  if cp < 0x80 then [cp]
  else if cp < 0x800 then
    [0xC0 ||| (cp >>> 6), 0x80 ||| (cp &&& 0x3F)]
  else if cp < 0x10000 then
    [0xE0 ||| (cp >>> 12), 0x80 ||| ((cp >>> 6) &&& 0x3F),
     0x80 ||| (cp &&& 0x3F)]
  else if cp < 0x110000 then
    [0xF0 ||| (cp >>> 18), 0x80 ||| ((cp >>> 12) &&& 0x3F),
     0x80 ||| ((cp >>> 6) &&& 0x3F), 0x80 ||| (cp &&& 0x3F)]
  else [0xEF, 0xBF, 0xBD]

/-- `write_json_escaped_char` (pdfium_cli.cpp:3818-3852): encode the code
point as UTF-8 and pass the buffer through `write_json_escaped_string`. -/
def writeJsonEscapedChar (cp : ℕ) : List ℕ :=
  writeJsonEscapedString (utf8Buf cp)

/-! ## Indirect-object cache

From core/fpdfapi/parser/cpdf_indirect_object_holder.cpp.  The map from
object number to stored pointer is an association list; an entry whose value
is `none` is a stored null `RetainPtr` — in particular the placeholder
inserted by `GetOrParseIndirectObjectInternal` before parsing.  The parse
callback `ParseIndirectObject` is a parameter. -/

/-- The sentinel `CPDF_Object::kInvalidObjNum`, `(uint32_t)-1`.  (The header
defining it is not among the sources; the value is the standard PDFium one
and only its role as a distinguished sentinel matters.) -/
def kInvalidObjNum : ℕ := 4294967295

/-- An indirect object as far as the holder inspects it: its object number
and its generation number. -/
structure PdfIndObj where
  objNum : ℕ
  genNum : ℕ
deriving DecidableEq

/-- Lookup in the object map. -/
def mapLookup (m : List (ℕ × Option PdfIndObj)) (k : ℕ) :
    Option (Option PdfIndObj) :=
  List.lookup k m

/-- Insert or overwrite a key in the object map. -/
def mapInsert (m : List (ℕ × Option PdfIndObj)) (k : ℕ)
    (v : Option PdfIndObj) : List (ℕ × Option PdfIndObj) :=
  (k, v) :: m.filter (fun p => p.1 ≠ k)

/-- Erase a key from the object map. -/
def mapErase (m : List (ℕ × Option PdfIndObj)) (k : ℕ) :
    List (ℕ × Option PdfIndObj) :=
  m.filter (fun p => p.1 ≠ k)

/-- State of a `CPDF_IndirectObjectHolder`: the object map and
`last_obj_num_`. -/
structure HolderState where
  objs : List (ℕ × Option PdfIndObj)
  lastObjNum : ℕ
deriving DecidableEq

/-- `FilterInvalidObjNum` (cpdf_indirect_object_holder.cpp:19-21): a stored
pointer is returned only when non-null and its object number is not the
invalid sentinel. -/
def filterInvalidObjNum (o : Option PdfIndObj) : Option PdfIndObj :=
  match o with
  | some obj => if obj.objNum ≠ kInvalidObjNum then some obj else none
  | none => none

/-- `GetIndirectObjectInternal` (cpdf_indirect_object_holder.cpp:43-52):
look the key up and filter invalid entries; an absent key, a stored null
pointer (placeholder) and an invalid stored object number all yield
nothing. -/
def getIndirectObjectInternal (st : HolderState) (k : ℕ) : Option PdfIndObj :=
  match mapLookup st.objs k with
  | none => none
  | some v => filterInvalidObjNum v

/-- `GetOrParseIndirectObjectInternal`
(cpdf_indirect_object_holder.cpp:59-108), sequentialized (the fast-path
lookup and the double-check after the lock upgrade collapse into one lookup):
reject the zero and sentinel keys; on a present entry return its filtered
value without parsing; otherwise insert the `none` placeholder, run the
parse callback, and either store the parsed object (setting its object
number and raising `last_obj_num_`) or erase the placeholder.  The result is
(returned object, new state, whether the parse callback ran). -/
def getOrParseIndirectObjectInternal (parseFn : ℕ → Option PdfIndObj)
    (st : HolderState) (k : ℕ) : Option PdfIndObj × HolderState × Bool :=
  if k = 0 ∨ k = kInvalidObjNum then (none, st, false)
  else
    match mapLookup st.objs k with
    | some v => (filterInvalidObjNum v, st, false)
    | none =>
      let st1 : HolderState := { st with objs := mapInsert st.objs k none }
      match parseFn k with
      | none => (none, { st1 with objs := mapErase st1.objs k }, true)
      | some newObj =>
        let stored : PdfIndObj := { newObj with objNum := k }
        (some stored,
         { objs := mapInsert st1.objs k (some stored),
           lastObjNum := max st.lastObjNum k }, true)

/-- `AddIndirectObject` (cpdf_indirect_object_holder.cpp:115-122): the CHECK
requires the incoming object number to be zero (`none` models the CHECK
crash); the object receives `++last_obj_num_` as its number and is
inserted. -/
def addIndirectObject (st : HolderState) (obj : PdfIndObj) :
    Option (ℕ × HolderState) :=
  if obj.objNum ≠ 0 then none
  else
    let n := st.lastObjNum + 1
    some (n, { objs := mapInsert st.objs n (some { obj with objNum := n }),
               lastObjNum := n })

/-- `ReplaceIndirectObjectIfHigherGeneration`
(cpdf_indirect_object_holder.cpp:124-143): reject a null object or the
sentinel key; when the existing entry is valid and the new generation does
not exceed the old one return false; otherwise store the object under the
key (setting its object number) and raise `last_obj_num_`.  The `operator[]`
default-insertion of a null entry is observable only through lookups and is
immediately overwritten on every path that changes the map. -/
def replaceIndirectObjectIfHigherGeneration (st : HolderState) (k : ℕ)
    (obj : Option PdfIndObj) : Bool × HolderState :=
  match obj with
  | none => (false, st)
  | some newObj =>
    if k = kInvalidObjNum then (false, st)
    else
      match filterInvalidObjNum ((mapLookup st.objs k).getD none) with
      | some oldObj =>
        if newObj.genNum ≤ oldObj.genNum then (false, st)
        else
          let stored : PdfIndObj := { newObj with objNum := k }
          (true, { objs := mapInsert st.objs k (some stored),
                   lastObjNum := max st.lastObjNum k })
      | none =>
        let stored : PdfIndObj := { newObj with objNum := k }
        (true, { objs := mapInsert st.objs k (some stored),
                 lastObjNum := max st.lastObjNum k })

/-! # Theorems -/

/-! ## Worker pool lemmas -/

/-- Every pool transition preserves the counter invariant. -/
theorem poolStep_inv {s : PoolState} {l : PoolLabel} {s' : PoolState}
    (h : PoolStep s l s') (hs : PoolInv s) : PoolInv s' := by
  obtain ⟨h1, h2, h3, h4, h5⟩ := hs
  cases h <;> refine ⟨?_, ?_, ?_, ?_, ?_⟩ <;> simp <;> omega

/-- Pool transitions do not change the configured queue depth. -/
theorem poolStep_depth {s : PoolState} {l : PoolLabel} {s' : PoolState}
    (h : PoolStep s l s') : s'.maxQueueDepth = s.maxQueueDepth := by
  cases h <;> rfl

/-- The counter invariant holds along any run. -/
theorem poolReaches_inv {s : PoolState} {tr : List PoolLabel} {s' : PoolState}
    (h : PoolReaches s tr s') (hs : PoolInv s) : PoolInv s' := by
  induction h with
  | refl => exact hs
  | step hstep _ ih => exact ih (poolStep_inv hstep hs)

/-- With a positive depth `d` and no batch enqueues in the trace, the counter
never exceeds `d`. -/
theorem poolReaches_nobatch_bound {s : PoolState} {tr : List PoolLabel}
    {s' : PoolState} (h : PoolReaches s tr s')
    (hnb : ∀ l ∈ tr, ∀ n, l ≠ PoolLabel.batchEnq n)
    {d : ℤ} (hdep : s.maxQueueDepth = d) (hd : 0 < d)
    (hb : s.outstanding ≤ d) : s'.outstanding ≤ d := by
  induction h with
  | refl => exact hb
  | @step s₁ l s₂ tr₂ s₃ hstep _ ih =>
    have hl := hnb l (List.mem_cons_self l tr₂)
    have hnb₂ : ∀ l₂ ∈ tr₂, ∀ n, l₂ ≠ PoolLabel.batchEnq n :=
      fun l₂ hm => hnb l₂ (List.mem_cons_of_mem l hm)
    have hdep₂ : s₂.maxQueueDepth = d := (poolStep_depth hstep).trans hdep
    refine ih hnb₂ hdep₂ ?_
    cases hstep with
    | startEnq hg =>
      show s₁.outstanding + 1 ≤ d
      rcases hg with hg | hg <;> omega
    | pushQueue hq => exact hb
    | batchEnq m hn hg => exact absurd rfl (hl _)
    | dequeue hq => exact hb
    | callbackRet hq => exact hb
    | decrement hq =>
      show s₁.outstanding - 1 ≤ d
      omega

/-! ## C2 — outstanding-task counter balance -/

/-- C2: at every observable point of a pool run the `outstanding_tasks_`
counter equals the number of tasks whose enqueue has started (the counter is
incremented before a task is placed on a queue) minus the number of tasks
fully processed (decremented strictly after the completion callback returned,
which the transition system encodes structurally); and in any run in which
the counter has returned to 0 — the condition under which
`WaitForCompletion` returns — the number of completion callbacks that have
returned equals the number of enqueues. -/
theorem c2_outstanding_counter_balance
    (d : ℤ) (tr : List PoolLabel) (s : PoolState)
    (h : PoolReaches (initPool d) tr s)
    (d₂ : ℤ) (tr₂ : List PoolLabel) (s₂ : PoolState)
    (h₂ : PoolReaches (initPool d₂) tr₂ s₂) (hdone : s₂.outstanding = 0) :
    s.outstanding = (s.nInc : ℤ) - s.nDec ∧
    s₂.nCb = s₂.nInc ∧ s₂.nDec = s₂.nInc := by
  have hs : PoolInv s := poolReaches_inv h (by simp [PoolInv, initPool])
  have hs₂ : PoolInv s₂ := poolReaches_inv h₂ (by simp [PoolInv, initPool])
  obtain ⟨h1, h2, h3, h4, h5⟩ := hs
  obtain ⟨g1, g2, g3, g4, g5⟩ := hs₂
  refine ⟨h1, ?_, ?_⟩ <;> omega

/-- Witness for C2: a run with one enqueued task observed mid-flight, and a
completed five-stage run of one task. -/
theorem c2_outstanding_counter_balance_witness :
    (PoolState.mk 0 1 1 1 0 0 0).outstanding =
        ((PoolState.mk 0 1 1 1 0 0 0).nInc : ℤ) -
          (PoolState.mk 0 1 1 1 0 0 0).nDec ∧
    (PoolState.mk 0 0 1 1 1 1 1).nCb = (PoolState.mk 0 0 1 1 1 1 1).nInc ∧
    (PoolState.mk 0 0 1 1 1 1 1).nDec = (PoolState.mk 0 0 1 1 1 1 1).nInc :=
  c2_outstanding_counter_balance 0
    [PoolLabel.startEnq, PoolLabel.pushQueue] (PoolState.mk 0 1 1 1 0 0 0)
    (PoolReaches.step (PoolStep.startEnq _ (Or.inl (by decide)))
      (PoolReaches.step (PoolStep.pushQueue _ (by decide))
        (PoolReaches.refl _)))
    0
    [PoolLabel.startEnq, PoolLabel.pushQueue, PoolLabel.dequeue,
     PoolLabel.callbackRet, PoolLabel.decrement]
    (PoolState.mk 0 0 1 1 1 1 1)
    (PoolReaches.step (PoolStep.startEnq _ (Or.inl (by decide)))
      (PoolReaches.step (PoolStep.pushQueue _ (by decide))
        (PoolReaches.step (PoolStep.dequeue _ (by decide))
          (PoolReaches.step (PoolStep.callbackRet _ (by decide))
            (PoolReaches.step (PoolStep.decrement _ (by decide))
              (PoolReaches.refl _))))))
    (by decide)

/-! ## C3 — backpressure -/

/-- C3 counterexample: with depth 256, the claimed bound "at no observation
point does `outstanding_tasks` exceed 256" is violated by the code's own
batch enqueue — `EnqueueTasksV2Batch` of 1000 tasks (exactly what
`FPDF_RenderPagesParallelV2` issues for a 1000-page range) only waits for
free space `min(1000, 256) = 256`, i.e. for the queue to drain to 0, and
then adds all 1000 tasks, driving the counter to 1000. -/
theorem c3_bound_counterexample :
    ¬ (∀ (tr : List PoolLabel) (s : PoolState),
        PoolReaches (initPool 256) tr s → s.outstanding ≤ 256) := by
  intro hall
  have h := hall [PoolLabel.batchEnq 1000]
    { initPool 256 with
        outstanding := (initPool 256).outstanding + (1000 : ℕ),
        nInc := (initPool 256).nInc + 1000,
        nQueued := (initPool 256).nQueued + 1000 }
    (PoolReaches.step
      (PoolStep.batchEnq (initPool 256) 1000 (by decide) (Or.inr (by decide)))
      (PoolReaches.refl _))
  simp [initPool] at h

/-- C3 (amended): with a positive depth `d`, a single enqueue can fire only
while `outstanding < d` (it blocks while `outstanding ≥ d`), and a batch
enqueue of `n` tasks can fire only once `outstanding ≤ d - min(n, d)` (the
free space the code waits for); consequently a run of single enqueues never
drives the counter above `d = 256` — but a bulk enqueue may (see the
counterexample), the 1000-task batch raising the counter to 1000 right after
the queue drains.  On completion (counter back to 0) every enqueued task's
callback has returned exactly once. -/
theorem c3_backpressure_amended
    (s₁ s₁' : PoolState) (hd₁ : 0 < s₁.maxQueueDepth)
    (hse : PoolStep s₁ PoolLabel.startEnq s₁')
    (s₂ s₂' : PoolState) (n : ℕ) (hd₂ : 0 < s₂.maxQueueDepth)
    (hbe : PoolStep s₂ (PoolLabel.batchEnq n) s₂')
    (tr : List PoolLabel) (sr : PoolState)
    (hr : PoolReaches (initPool 256) tr sr)
    (hnb : ∀ l ∈ tr, ∀ m, l ≠ PoolLabel.batchEnq m)
    (tr₂ : List PoolLabel) (sr₂ : PoolState)
    (hr₂ : PoolReaches (initPool 256) tr₂ sr₂)
    (hz : sr₂.outstanding = 0) :
    s₁.outstanding < s₁.maxQueueDepth ∧
    s₂.outstanding ≤ s₂.maxQueueDepth - min (n : ℤ) s₂.maxQueueDepth ∧
    sr.outstanding ≤ 256 ∧
    sr₂.nCb = sr₂.nInc ∧ sr₂.nDec = sr₂.nInc := by
  refine ⟨?_, ?_, ?_, ?_, ?_⟩
  · cases hse with
    | startEnq hg =>
      rcases hg with hg | hg
      · omega
      · exact hg
  · cases hbe with
    | batchEnq m hn hg =>
      rcases hg with hg | hg
      · exact absurd hd₂ (by omega)
      · exact hg
  · exact poolReaches_nobatch_bound hr hnb rfl (by norm_num)
      (by simp [initPool])
  · have hs₂ : PoolInv sr₂ := poolReaches_inv hr₂ (by simp [PoolInv, initPool])
    obtain ⟨g1, g2, g3, g4, g5⟩ := hs₂
    omega
  · have hs₂ : PoolInv sr₂ := poolReaches_inv hr₂ (by simp [PoolInv, initPool])
    obtain ⟨g1, g2, g3, g4, g5⟩ := hs₂
    omega

/-- Witness for C3 (amended): a single enqueue firing from the initial
depth-256 state, a batch of 100 firing from the same state, a batch-free
one-step run, and the empty completed run. -/
theorem c3_backpressure_amended_witness :
    (initPool 256).outstanding < (initPool 256).maxQueueDepth ∧
    (initPool 256).outstanding ≤
      (initPool 256).maxQueueDepth - min ((100 : ℕ) : ℤ)
        (initPool 256).maxQueueDepth ∧
    (PoolState.mk 256 1 1 0 0 0 0).outstanding ≤ 256 ∧
    (initPool 256).nCb = (initPool 256).nInc ∧
    (initPool 256).nDec = (initPool 256).nInc :=
  c3_backpressure_amended
    (initPool 256) _ (by decide)
    (PoolStep.startEnq _ (Or.inr (by decide)))
    (initPool 256) _ 100 (by decide)
    (PoolStep.batchEnq _ 100 (by decide) (Or.inr (by decide)))
    [PoolLabel.startEnq] (PoolState.mk 256 1 1 0 0 0 0)
    (PoolReaches.step (PoolStep.startEnq _ (Or.inr (by decide)))
      (PoolReaches.refl _))
    (by intro l hl m; fin_cases hl; simp)
    [] (initPool 256) (PoolReaches.refl _) (by decide)

/-! ## C4 — hybrid N×K thread-count cap -/

/-- C4: in the hybrid case (worker_count > 1 and thread_count > 1, hardware
count known), the parent-side guard caps thread_count at
`max(1, H / worker_count)` before spawning; in particular with
worker_count = 16, thread_count = 16 and 8 hardware threads the cap yields 1
with a notice, and the child (which applies its own per-worker cap to the
value received on the command line) runs with thread_count 1. -/
theorem c4_hybrid_thread_cap (w t hw : ℕ) (hw1 : 1 < w) (ht1 : 1 < t)
    (hhw : 0 < hw) :
    (hybridThreadCap w t hw).1 ≤ max 1 (hw / w) ∧
    hybridThreadCap 16 16 8 = (1, true) ∧
    childThreadCount 16 16 8 = 1 := by
  refine ⟨?_, by decide, by decide⟩
  unfold hybridThreadCap
  rw [if_pos ⟨hw1, ht1⟩]
  have hne : hw ≠ 0 := by omega
  rw [if_neg hne]
  show (if hw < w * t then (max 1 (hw / w), true) else (t, false)).1 ≤
    max 1 (hw / w)
  split
  · exact le_rfl
  · rename_i hle
    have hmul : t * w ≤ hw := by
      rw [Nat.mul_comm]
      exact Nat.le_of_not_lt hle
    have ht : t ≤ hw / w := (Nat.le_div_iff_mul_le (by omega)).mpr hmul
    exact le_trans ht (le_max_right _ _)

/-- Witness for C4 at the concrete scenario of the claim. -/
theorem c4_hybrid_thread_cap_witness :
    (hybridThreadCap 16 16 8).1 ≤ max 1 (8 / 16) ∧
    hybridThreadCap 16 16 8 = (1, true) ∧
    childThreadCount 16 16 8 = 1 :=
  c4_hybrid_thread_cap 16 16 8 (by decide) (by decide) (by decide)

/-! ## C5 / C7 — scale precision and dimension overflow -/

/-- The single-threaded bulk render loop processes every page of the batch,
whatever the per-page outcomes. -/
theorem cliBatchRender_processes_all (pages : List (ℚ × ℚ)) (dpi : ℚ) :
    (cliBatchRender pages dpi).1 = pages.length := by
  suffices h : ∀ (ps : List (ℚ × ℚ)) (acc : ℕ × ℕ),
      (ps.foldl
        (fun acc pg =>
          match cliPageDims pg.1 pg.2 dpi with
          | none => (acc.1 + 1, acc.2 + 1)
          | some _ => (acc.1 + 1, acc.2)) acc).1 = acc.1 + ps.length by
    simpa [cliBatchRender] using h pages (0, 0)
  intro ps
  induction ps with
  | nil => intro acc; simp
  | cons p ps ih =>
    intro acc
    simp only [List.foldl_cons, List.length_cons]
    cases cliPageDims p.1 p.2 dpi with
    | none =>
      rw [ih]
      show acc.1 + 1 + ps.length = acc.1 + (ps.length + 1)
      omega
    | some v =>
      rw [ih]
      show acc.1 + 1 + ps.length = acc.1 + (ps.length + 1)
      omega

/-- C5 counterexample: at DPI 300 on an 8.5"×11" page (612×792 points) the
code computes 2549×3299 pixels, not the claimed 2550×3300 — the floored
scale 4.166666 gives 612 × 4.166666 = 2549.999592, which truncates to 2549
(and 792 × 4.166666 = 3299.999472 truncates to 3299).  The double
computation agrees with this exact rational one: its error is below 10⁻¹²
while the distance to the next integer is about 4·10⁻⁴. -/
theorem c5_dpi300_dims_counterexample :
    cliPageDims 612 792 300 ≠ some (2550, 3300) := by
  have h : cliPageDims 612 792 300 = some (2549, 3299) := by
    unfold cliPageDims scaleOfDpi ratTrunc intMax
    norm_num
  rw [h]
  simp

/-- C5 (amended): the render scale is `floor((d/72)·10⁶)/10⁶` and every
dimension pair the CLI path produces is the floor of points times scale,
exactly as the spec formula states; at DPI 300 the scale is 4.166666 and an
8.5"×11" page yields width_px = 2549 and height_px = 3299 (not 2550×3300). -/
theorem c5_scale_and_dims_amended (dpi wPts hPts : ℚ) (w h : ℤ)
    (hdims : cliPageDims wPts hPts dpi = some (w, h)) :
    scaleOfDpi dpi = specScale dpi ∧
    w = specPixelDim wPts dpi ∧ h = specPixelDim hPts dpi ∧
    scaleOfDpi 300 = 4166666 / 1000000 ∧
    cliPageDims 612 792 300 = some (2549, 3299) := by
  have hmain : w = specPixelDim wPts dpi ∧ h = specPixelDim hPts dpi := by
    simp only [cliPageDims] at hdims
    split at hdims
    · exact absurd hdims (by simp)
    · rename_i hcond
      push_neg at hcond
      obtain ⟨h1, h2, h3, h4⟩ := hcond
      simp only [Option.some.injEq, Prod.mk.injEq] at hdims
      obtain ⟨hw, hh⟩ := hdims
      constructor
      · rw [← hw, ratTrunc, if_pos (by linarith)]
        rfl
      · rw [← hh, ratTrunc, if_pos (by linarith)]
        rfl
  refine ⟨rfl, hmain.1, hmain.2, by norm_num [scaleOfDpi], ?_⟩
  unfold cliPageDims scaleOfDpi ratTrunc intMax
  norm_num

/-- Witness for C5 (amended) at the claim's concrete page. -/
theorem c5_scale_and_dims_amended_witness :
    scaleOfDpi 300 = specScale 300 ∧
    (2549 : ℤ) = specPixelDim 612 300 ∧ (3299 : ℤ) = specPixelDim 792 300 ∧
    scaleOfDpi 300 = 4166666 / 1000000 ∧
    cliPageDims 612 792 300 = some (2549, 3299) :=
  c5_scale_and_dims_amended 300 612 792 2549 3299
    (by unfold cliPageDims scaleOfDpi ratTrunc intMax; norm_num)

/-- Out-of-range behavior shared by both shipped targets of the
`static_cast<int>` conversion: for a value above INT_MAX the result is
either below 1 (x86-64 yields INT_MIN) or exactly INT_MAX (arm64 saturates;
and a value truncating to exactly INT_MAX is in range on both).  The x86-64
model `castDoubleToInt` satisfies it. -/
theorem castDoubleToInt_overflow (q : ℚ) (hq : (intMax : ℚ) < q) :
    castDoubleToInt q < 1 ∨ castDoubleToInt q = intMax := by
  have h0 : (0 : ℚ) ≤ q := le_trans (by norm_num [intMax]) (le_of_lt hq)
  have hfl : intMax ≤ ⌊q⌋ := Int.le_floor.mpr (le_of_lt hq)
  unfold castDoubleToInt
  rw [ratTrunc, if_pos h0]
  split_ifs with h
  · exact Or.inr (le_antisymm h.2 hfl)
  · exact Or.inl (by norm_num [intMin])

/-- C7: a page whose computed raw pixel dimension exceeds INT_MAX fails and
the rest of the batch continues, in both paths.  In the single-threaded
per-page path the explicit INT_MAX guard rejects the page and the bulk loop
still processes every page, counting the failure.  In the parallel V2
per-page dimension mode (dpi > 0, width = height = 0) the task never
renders: for any cast semantics agreeing with the shipped targets on
overflow (result below 1 or saturated to INT_MAX), either the `< 1`
dimension guard fires or the INT_MAX-sized bitmap cannot be created and the
null-bitmap branch fires — both record the failure through the callback with
success=false and return the worker to the remaining tasks. -/
theorem c7_overflow_page_fails_batch_continues
    (castFn : ℚ → ℤ)
    (hcast : ∀ q : ℚ, (intMax : ℚ) < q → castFn q < 1 ∨ castFn q = intMax)
    (wPts hPts dpi : ℚ) (fmt : FpdfFmt) (pages : List (ℚ × ℚ))
    (hover : (intMax : ℚ) < wPts * scaleOfDpi dpi ∨
             (intMax : ℚ) < hPts * scaleOfDpi dpi) :
    cliPageDims wPts hPts dpi = none ∧
    (cliBatchRender pages dpi).1 = pages.length ∧
    processTaskV2DimMode castFn wPts hPts dpi fmt ≠ V2TaskOutcome.renders := by
  refine ⟨?_, cliBatchRender_processes_all pages dpi, ?_⟩
  · simp only [cliPageDims]
    rcases hover with h | h
    · rw [if_pos (Or.inl h)]
    · rw [if_pos (Or.inr (Or.inr (Or.inl h)))]
  · simp only [processTaskV2DimMode]
    by_cases hdim : castFn (wPts * scaleOfDpi dpi) < 1 ∨
        castFn (hPts * scaleOfDpi dpi) < 1
    · rw [if_pos hdim]
      simp
    · rw [if_neg hdim]
      push_neg at hdim
      obtain ⟨haw, hah⟩ := hdim
      have hbad : fpdfBitmapCreateOk (castFn (wPts * scaleOfDpi dpi))
          (castFn (hPts * scaleOfDpi dpi)) fmt = false := by
        apply decide_eq_false
        rintro ⟨hw0, hh0, hrow, htot⟩
        have hbpp : 8 ≤ bitsPerPixel fmt := by
          cases fmt <;> simp [bitsPerPixel]
        rcases hover with h | h
        · rcases hcast _ h with hlt | heq
          · omega
          · rw [heq] at hrow
            simp only [intMax] at heq hrow
            omega
        · rcases hcast _ h with hlt | heq
          · omega
          · have hy : (8 : ℤ) ≤ castFn (wPts * scaleOfDpi dpi) *
                bitsPerPixel fmt := by
              calc (8 : ℤ) = 1 * 8 := by norm_num
                _ ≤ castFn (wPts * scaleOfDpi dpi) * bitsPerPixel fmt :=
                  mul_le_mul haw hbpp (by norm_num) (by omega)
            rw [heq] at htot
            simp only [intMax] at htot
            obtain ⟨y, hyx⟩ : ∃ y, castFn (wPts * scaleOfDpi dpi) *
                bitsPerPixel fmt = y := ⟨_, rfl⟩
            rw [hyx] at hy htot
            omega
      rw [hbad]
      simp

/-- Witness for C7: a 10¹²-point-wide page at DPI 300 in a one-page batch,
with the x86-64 cast model instantiating the overflow hypothesis. -/
theorem c7_overflow_page_fails_batch_continues_witness :
    cliPageDims 1000000000000 792 300 = none ∧
    (cliBatchRender [(1000000000000, 792)] 300).1 =
      [((1000000000000 : ℚ), (792 : ℚ))].length ∧
    processTaskV2DimMode castDoubleToInt 1000000000000 792 300
      FpdfFmt.bgrx ≠ V2TaskOutcome.renders :=
  c7_overflow_page_fails_batch_continues castDoubleToInt
    castDoubleToInt_overflow 1000000000000 792 300 FpdfFmt.bgrx
    [(1000000000000, 792)]
    (Or.inl (by unfold scaleOfDpi intMax; norm_num))

/-! ## C8 — JSONL string escaping -/

/-- C8 counterexample: the non-ASCII code point U+00E9 (é) is emitted as its
raw UTF-8 bytes C3 A9 inside the quotes — no backslash appears in the
output, and in particular it is not the `é` escape the claim
prescribes. -/
theorem c8_nonascii_raw_counterexample :
    writeJsonEscapedChar 233 = [34, 195, 169, 34] ∧
    ¬ 92 ∈ writeJsonEscapedChar 233 ∧
    writeJsonEscapedChar 233 ≠ [34, 92, 117, 48, 48, 101, 57, 34] := by
  decide

/-- C8 (amended): every emitted string escapes the double quote, the
backslash and the C0 controls (the escape of such a byte starts with a
backslash and is never the byte itself), while non-ASCII bytes are written
through verbatim as raw UTF-8, not as `\uXXXX` escapes. -/
theorem c8_escaping_amended (b c : ℕ) (hb : b = 34 ∨ b = 92 ∨ b < 32)
    (hc : 128 ≤ c) :
    (escapeByte b).head? = some 92 ∧ escapeByte b ≠ [b] ∧
    escapeByte c = [c] := by
  refine ⟨?_, ?_, ?_⟩
  · rcases hb with rfl | rfl | hblt
    · decide
    · decide
    · unfold escapeByte
      split_ifs <;> first | rfl | omega
  · rcases hb with rfl | rfl | hblt
    · decide
    · decide
    · unfold escapeByte
      split_ifs <;> simp_all
  · unfold escapeByte
    split_ifs <;> first | rfl | omega

/-- Witness for C8 (amended) at the quote byte and a non-ASCII byte. -/
theorem c8_escaping_amended_witness :
    (escapeByte 34).head? = some 92 ∧ escapeByte 34 ≠ [34] ∧
    escapeByte 195 = [195] :=
  c8_escaping_amended 34 195 (Or.inl rfl) (by decide)

/-! ## C9 / C10 — indirect-object cache -/

/-- Looking up a key right after inserting it finds the inserted value. -/
theorem mapLookup_insert_self (m : List (ℕ × Option PdfIndObj)) (k : ℕ)
    (v : Option PdfIndObj) : mapLookup (mapInsert m k v) k = some v := by
  simp [mapLookup, mapInsert, List.lookup]

/-- C9: while a placeholder for key `k` is in the cache — the state between
`GetOrParseIndirectObjectInternal` inserting the null entry and storing the
parsed result, which is exactly the state a recursive re-entry for `k`
observes — a `get` for `k` returns nothing and a `get_or_parse` for `k`
returns nothing, leaves the state unchanged, and does not invoke the parse
callback (the Bool component); the slow path's freshly inserted placeholder
is indeed such a state. -/
theorem c9_placeholder_observed_as_miss (parseFn : ℕ → Option PdfIndObj)
    (st : HolderState) (k : ℕ) (hph : mapLookup st.objs k = some none)
    (st₂ : HolderState) (k₂ : ℕ) :
    getOrParseIndirectObjectInternal parseFn st k = (none, st, false) ∧
    getIndirectObjectInternal st k = none ∧
    mapLookup (mapInsert st₂.objs k₂ none) k₂ = some none := by
  refine ⟨?_, ?_, mapLookup_insert_self _ _ _⟩
  · unfold getOrParseIndirectObjectInternal
    split_ifs with h
    · rfl
    · rw [hph]
      rfl
  · unfold getIndirectObjectInternal
    rw [hph]
    rfl

/-- Witness for C9 at a concrete placeholder state. -/
theorem c9_placeholder_observed_as_miss_witness :
    getOrParseIndirectObjectInternal (fun _ => none)
        (HolderState.mk [(5, none)] 0) 5 =
      (none, HolderState.mk [(5, none)] 0, false) ∧
    getIndirectObjectInternal (HolderState.mk [(5, none)] 0) 5 = none ∧
    mapLookup (mapInsert (HolderState.mk [] 0).objs 3 none) 3 = some none :=
  c9_placeholder_observed_as_miss (fun _ => none)
    (HolderState.mk [(5, none)] 0) 5 (by decide) (HolderState.mk [] 0) 3

/-- C10: calling `ReplaceIndirectObjectIfHigherGeneration` with a valid
non-zero object number and a non-null object while the cache holds no valid
entry for that number inserts the object with its object number set, returns
true, raises `last_obj_num_` to at least the number, and a subsequent
`AddIndirectObject` assigns a strictly higher object number. -/
theorem c10_replace_inserts_when_no_valid_entry (st : HolderState) (k : ℕ)
    (obj obj₂ : PdfIndObj) (hk0 : k ≠ 0) (hki : k ≠ kInvalidObjNum)
    (hmiss : getIndirectObjectInternal st k = none) (hobj₂ : obj₂.objNum = 0) :
    (replaceIndirectObjectIfHigherGeneration st k (some obj)).1 = true ∧
    getIndirectObjectInternal
        (replaceIndirectObjectIfHigherGeneration st k (some obj)).2 k =
      some { obj with objNum := k } ∧
    k ≤ (replaceIndirectObjectIfHigherGeneration st k (some obj)).2.lastObjNum ∧
    k < ((addIndirectObject
          (replaceIndirectObjectIfHigherGeneration st k (some obj)).2
          obj₂).map Prod.fst).getD 0 := by
  have hold : filterInvalidObjNum ((mapLookup st.objs k).getD none) = none := by
    unfold getIndirectObjectInternal at hmiss
    cases hl : mapLookup st.objs k with
    | none => simp [filterInvalidObjNum]
    | some v =>
      rw [hl] at hmiss
      simpa using hmiss
  have hrepl : replaceIndirectObjectIfHigherGeneration st k (some obj) =
      (true, { objs := mapInsert st.objs k (some { obj with objNum := k }),
               lastObjNum := max st.lastObjNum k }) := by
    simp only [replaceIndirectObjectIfHigherGeneration]
    rw [if_neg hki, hold]
  rw [hrepl]
  refine ⟨rfl, ?_, ?_, ?_⟩
  · unfold getIndirectObjectInternal
    rw [mapLookup_insert_self]
    simp [filterInvalidObjNum, hki]
  · exact le_max_right _ _
  · have hadd : addIndirectObject
        { objs := mapInsert st.objs k (some { obj with objNum := k }),
          lastObjNum := max st.lastObjNum k } obj₂ =
        some (max st.lastObjNum k + 1,
          { objs := mapInsert
              (mapInsert st.objs k (some { obj with objNum := k }))
              (max st.lastObjNum k + 1)
              (some { obj₂ with objNum := max st.lastObjNum k + 1 }),
            lastObjNum := max st.lastObjNum k + 1 }) := by
      unfold addIndirectObject
      rw [if_neg (by simp [hobj₂])]
    rw [hadd]
    show k < max st.lastObjNum k + 1
    have := le_max_right st.lastObjNum k
    omega

/-- Witness for C10 on an empty cache. -/
theorem c10_replace_inserts_when_no_valid_entry_witness :
    (replaceIndirectObjectIfHigherGeneration (HolderState.mk [] 0) 5
      (some (PdfIndObj.mk 0 7))).1 = true ∧
    getIndirectObjectInternal
        (replaceIndirectObjectIfHigherGeneration (HolderState.mk [] 0) 5
          (some (PdfIndObj.mk 0 7))).2 5 = some (PdfIndObj.mk 5 7) ∧
    5 ≤ (replaceIndirectObjectIfHigherGeneration (HolderState.mk [] 0) 5
          (some (PdfIndObj.mk 0 7))).2.lastObjNum ∧
    5 < ((addIndirectObject
          (replaceIndirectObjectIfHigherGeneration (HolderState.mk [] 0) 5
            (some (PdfIndObj.mk 0 7))).2 (PdfIndObj.mk 0 9)).map
            Prod.fst).getD 0 :=
  c10_replace_inserts_when_no_valid_entry (HolderState.mk [] 0) 5
    (PdfIndObj.mk 0 7) (PdfIndObj.mk 0 9) (by decide) (by decide) (by decide)
    rfl

/-! ## C6 — smart-mode fast-path characterization -/

/-- A byte list whose first three elements are FF D8 FF decomposes as such a
cons chain. -/
theorem take3_jpeg_shape (xs : List ℕ) (h : xs.take 3 = [255, 216, 255]) :
    ∃ rest, xs = 255 :: 216 :: 255 :: rest := by
  match xs, h with
  | [], h => simp at h
  | [a], h => simp at h
  | [a, b], h => simp at h
  | a :: b :: c :: rest, h =>
    simp only [List.take, List.cons.injEq, and_true] at h
    obtain ⟨h1, h2, h3⟩ := h
    exact ⟨rest, by simp [h1, h2, h3]⟩

/-- C6 (amended): for a non-PPM/raw/benchmark render, a page's output file
is its raw embedded JPEG bytes exactly when the page has a single IMAGE
object whose bounds are retrievable and cover at least 0.95 of the
(positive) page area, some filter name of which begins with the nine bytes
"DCTDecode", and whose raw data starts with the JPEG signature FF D8 FF; in
every other case the page goes through the normal rendering path. -/
theorem c6_smart_mode_iff_amended (page : PdfPage) (data : List ℕ) :
    smartModeOutput false false false page = some data ↔
      amendedScannedPredicate page data := by
  constructor
  · intro h
    have hscan : isScannedPage page = true := by
      by_contra hns
      simp [smartModeOutput, hns] at h
    have hfast : renderScannedPageFast page = some data := by
      simpa [smartModeOutput, hscan] using h
    unfold isScannedPage at hscan
    unfold renderScannedPageFast at hfast
    cases hobj : page.objects with
    | nil => rw [hobj] at hscan; simp at hscan
    | cons o rest =>
      cases rest with
      | cons o2 rest2 => rw [hobj] at hscan; simp at hscan
      | nil =>
        rw [hobj] at hscan hfast
        simp only [List.head?_cons] at hfast
        replace hscan : (if o.kind = PageObjKind.image then
            (match o.bounds with
             | none => false
             | some (l, b, r, t) =>
               if page.widthPts * page.heightPts ≤ 0 then false
               else decide ((95 : ℚ) / 100 ≤
                 (r - l) * (t - b) / (page.widthPts * page.heightPts)))
            else false) = true := hscan
        replace hfast : (if (!o.filters.any filterIsDct) = true then none
            else if o.rawData.length = 0 then none
            else match o.rawData with
              | b0 :: b1 :: b2 :: _ =>
                if b0 = 255 ∧ b1 = 216 ∧ b2 = 255 then some o.rawData
                else none
              | _ => none) = some data := hfast
        by_cases hkind : o.kind = PageObjKind.image
        · rw [if_pos hkind] at hscan
          cases hb : o.bounds with
          | none => rw [hb] at hscan; simp at hscan
          | some bd =>
            obtain ⟨l, bb, r, t⟩ := bd
            rw [hb] at hscan
            replace hscan : (if page.widthPts * page.heightPts ≤ 0 then false
                else decide ((95 : ℚ) / 100 ≤
                  (r - l) * (t - bb) /
                    (page.widthPts * page.heightPts))) = true := hscan
            by_cases harea : page.widthPts * page.heightPts ≤ 0
            · rw [if_pos harea] at hscan
              exact absurd hscan (by simp)
            · rw [if_neg harea, decide_eq_true_eq] at hscan
              by_cases hany : (!o.filters.any filterIsDct) = true
              · rw [if_pos hany] at hfast
                exact absurd hfast (by simp)
              · rw [if_neg hany] at hfast
                by_cases hlen : o.rawData.length = 0
                · rw [if_pos hlen] at hfast
                  exact absurd hfast (by simp)
                · rw [if_neg hlen] at hfast
                  cases hraw : o.rawData with
                  | nil => rw [hraw] at hlen; simp at hlen
                  | cons b0 tl =>
                    rw [hraw] at hfast
                    cases tl with
                    | nil => simp at hfast
                    | cons b1 tl1 =>
                      cases tl1 with
                      | nil => simp at hfast
                      | cons b2 tl2 =>
                        replace hfast :
                            (if b0 = 255 ∧ b1 = 216 ∧ b2 = 255 then
                              some (b0 :: b1 :: b2 :: tl2)
                            else none) = some data := hfast
                        by_cases hsig : b0 = 255 ∧ b1 = 216 ∧ b2 = 255
                        · obtain ⟨hs0, hs1, hs2⟩ := hsig
                          rw [if_pos ⟨hs0, hs1, hs2⟩] at hfast
                          simp only [Option.some.injEq] at hfast
                          refine ⟨o, hobj, ?_, hkind, by simpa using hany,
                            ⟨l, bb, r, t, hb, lt_of_not_ge harea, hscan⟩, ?_⟩
                          · rw [← hfast, hraw]
                          · rw [hraw]
                            simp [List.take, hs0, hs1, hs2]
                        · rw [if_neg hsig] at hfast
                          exact absurd hfast (by simp)
        · rw [if_neg hkind] at hscan
          exact absurd hscan (by simp)
  · rintro ⟨obj, hobj, hdata, hkind, hany, ⟨l, bb, r, t, hb, harea, hcov⟩, hsig⟩
    obtain ⟨rest, hraw⟩ := take3_jpeg_shape obj.rawData hsig
    have hscan : isScannedPage page = true := by
      unfold isScannedPage
      rw [hobj]
      show (if obj.kind = PageObjKind.image then
          (match obj.bounds with
           | none => false
           | some (l, b, r, t) =>
             if page.widthPts * page.heightPts ≤ 0 then false
             else decide ((95 : ℚ) / 100 ≤
               (r - l) * (t - b) / (page.widthPts * page.heightPts)))
          else false) = true
      rw [if_pos hkind, hb]
      show (if page.widthPts * page.heightPts ≤ 0 then false
          else decide ((95 : ℚ) / 100 ≤
            (r - l) * (t - bb) / (page.widthPts * page.heightPts))) = true
      rw [if_neg (not_le.mpr harea)]
      exact decide_eq_true hcov
    have hfast : renderScannedPageFast page = some obj.rawData := by
      unfold renderScannedPageFast
      rw [hobj]
      simp only [List.head?_cons]
      show (if (!obj.filters.any filterIsDct) = true then none
          else if obj.rawData.length = 0 then none
          else match obj.rawData with
            | b0 :: b1 :: b2 :: _ =>
              if b0 = 255 ∧ b1 = 216 ∧ b2 = 255 then some obj.rawData
              else none
            | _ => none) = some obj.rawData
      rw [if_neg (by simp [hany]), if_neg (by rw [hraw]; simp)]
      rw [hraw]
      show (if (255 : ℕ) = 255 ∧ (216 : ℕ) = 216 ∧ (255 : ℕ) = 255 then
          some (255 :: 216 :: 255 :: rest) else none) =
        some (255 :: 216 :: 255 :: rest)
      simp
    simp [smartModeOutput, hscan, hfast, hdata]

/-- C6 counterexample: a page whose sole full-bleed image object carries the
filter name "DCTDecodeX" (not "DCTDecode") and valid JPEG raw bytes.  The
code's nine-byte `strncmp` prefix match accepts it and writes the raw bytes,
but the claim's predicate — which requires a DCTDecode filter — is false, so
the claimed "if and only if" fails at this input. -/
theorem c6_dct_prefix_counterexample :
    smartModeOutput false false false cexSmartPage = some [255, 216, 255, 0] ∧
    ¬ claimScannedPredicate cexSmartPage := by
  constructor
  · unfold smartModeOutput isScannedPage renderScannedPageFast cexSmartPage
      filterIsDct dctDecodeBytes
    norm_num
  · rintro ⟨obj, hobj, hkind, hmem, hbnds, hraw, hsig⟩
    simp only [cexSmartPage, List.cons.injEq, and_true] at hobj
    rw [← hobj] at hmem
    simp only [List.mem_singleton] at hmem
    have hlen := congrArg List.length hmem
    simp [dctDecodeBytes] at hlen

/-! ## C1 — single-threaded vs multi-threaded operation sequences -/

/-- C1 counterexample: with a form handle supplied (and otherwise ordinary
parameters: 100×200 bitmap, rotation 0, flags 1, BGRx output, page loads and
bitmap creation succeed), the single-threaded fast path of
`FPDF_RenderPagesParallel` and the multi-threaded `ProcessTask` issue
different operation sequences — the single-threaded path issues no
form-lifecycle events at all. -/
theorem c1_form_ops_counterexample :
    v1SingleOps (RenderParams.mk 100 200 0 1 0 true 0)
        (PageProps.mk true false 612 792 true) ≠
      processTaskOps (RenderParams.mk 100 200 0 1 0 true 0)
        (PageProps.mk true false 612 792 true) := by
  decide

/-- C1 (amended): when no form handle is supplied, the single-threaded fast
paths and the multi-threaded task processors issue identical operation
sequences (same bitmap format and dimensions, same fill color, same render
flags, same absence of form events), for v1 and for v2 alike; with a form
handle the multi-threaded paths additionally issue the four form-lifecycle
events and pass the original flags — without the grayscale bit — to the
form-overlay draw. -/
theorem c1_same_ops_without_form (p : RenderParams) (pg : PageProps)
    (hform : p.hasForm = false) :
    v1SingleOps p pg = processTaskOps p pg ∧
    v2SingleOps p pg = processTaskV2Ops p pg := by
  constructor
  · unfold v1SingleOps processTaskOps
    rw [hform]
    simp
  · unfold v2SingleOps processTaskV2Ops
    rw [hform]
    cases hl : pg.loadOk
    · simp
    · simp only [Bool.not_true, Bool.false_eq_true, if_false]
      cases hd : v2ActualDims p pg with
      | none => simp
      | some pr =>
        obtain ⟨aw, ah⟩ := pr
        simp

/-- Witness for C1 (amended) at concrete form-free parameters. -/
theorem c1_same_ops_without_form_witness :
    v1SingleOps (RenderParams.mk 100 200 0 1 0 false 0)
        (PageProps.mk true false 612 792 true) =
      processTaskOps (RenderParams.mk 100 200 0 1 0 false 0)
        (PageProps.mk true false 612 792 true) ∧
    v2SingleOps (RenderParams.mk 100 200 0 1 0 false 0)
        (PageProps.mk true false 612 792 true) =
      processTaskV2Ops (RenderParams.mk 100 200 0 1 0 false 0)
        (PageProps.mk true false 612 792 true) :=
  c1_same_ops_without_form (RenderParams.mk 100 200 0 1 0 false 0)
    (PageProps.mk true false 612 792 true) rfl

end PdfiumFast
